import Mathlib

/-!
Shallow embedding of `src/timer.c` (the pyuv Timer handle wrapper around a
libuv `uv_timer_t`), for checking the natural-language specification.

Modelling decisions:
* Python object values passed as `callback` / `data` are abstracted by `PyVal`:
  `Py_None`, callable objects and non-callable objects (identified by a `Nat`).
  `PyCallable_Check` is `PyVal.isCallable`.
* The C `double` arguments (`timeout`, `repeat`) are modelled as exact
  rationals `ℚ`; the C cast `(int64_t)(x * 1000)` (truncation toward zero) is
  `c_int64_trunc (x * 1000)`.
* `uv_timer_t` handles live in an association list `heap` keyed by allocation
  ids (`PyMem_Malloc` allocates a fresh id, `PyMem_Free` removes it).  A
  handle records the repeat value stored by `uv_timer_set_repeat` /
  `uv_timer_start`, whether it is running, and whether `uv_close` has been
  requested on it.
* Outcomes of the C entry points are `Res`: `ok` (returns `Py_None` / `0`),
  `err e w` (a Python exception `e` was set and `NULL`/`-1` returned; the
  mutated interpreter state `w` is kept, since CPython functions can mutate
  before raising), or `crash u` (undefined behaviour: NULL-handle dereference,
  use of freed memory, or `uv_close` on an already-closing handle, which is a
  libuv assertion failure).
* The keep-alive reference on the Timer object (`Py_INCREF(self)` at the end
  of a successful `Timer_func_start`, `Py_DECREF(obj)` in `on_timer_close`)
  is tracked as the pair of counters `keepIncs` / `keepDecs`.
* `uv_close` completion is asynchronous: `Timer_func_close` appends the
  handle to `pendingCloses`; the loop later runs `run_on_timer_close` on it.
-/

/-- Abstraction of the Python objects handed to the Timer: `Py_None`,
callable objects, and non-callable objects. -/
inductive PyVal where
  | pyNone
  | callable (id : Nat)
  | notCallable (id : Nat)
  deriving DecidableEq

/-- `PyCallable_Check`: true exactly on callable objects (`Py_None` is NOT
callable in CPython). -/
def PyVal.isCallable : PyVal → Bool
  | .callable _ => true
  | _ => false

/-- The Python exceptions `timer.c` can set, one constructor per distinct
`PyErr_SetString` / `PyErr_NoMemory` / `raise_uv_exception` site. -/
inductive PyErr where
  /-- `PyExc_TimerError`, message "Timer is closed". -/
  | timerClosed
  /-- `PyExc_TimerError`, message "Timer is already active.". -/
  | timerAlreadyActive
  /-- `PyExc_TimerError`, message "Timer is not active.". -/
  | timerNotActive
  /-- `PyExc_TypeError`, message "a callable or None is required". -/
  | notCallableOrNone
  /-- `PyExc_ValueError`, message "a positive value or zero is required" /
  "a positive float or 0.0 is required". -/
  | negativeValue
  /-- `PyExc_TypeError`, message "cannot delete attribute". -/
  | cannotDelete
  /-- `PyErr_NoMemory()`. -/
  | noMemory
  /-- `raise_uv_exception(self->loop, PyExc_TimerError)`. -/
  | uvRaised
  /-- `PyExc_TimerError`, message "Object already initialized". -/
  | alreadyInit
  deriving DecidableEq

/-- Undefined behaviour reachable in `timer.c`. -/
inductive UB where
  /-- A libuv call dereferences `self->uv_timer == NULL`. -/
  | nullDeref
  /-- A libuv call touches a handle already freed by `on_timer_close`. -/
  | useAfterFree
  /-- `uv_close` on a handle that is already closing (libuv asserts/aborts). -/
  | doubleClose
  deriving DecidableEq

/-- The state of one allocated `uv_timer_t`. -/
structure UvTimer where
  /-- the `repeat` field, in milliseconds, as stored by `uv_timer_start` /
  `uv_timer_set_repeat` (an `int64_t`). -/
  repeat_ms : Int
  /-- the timer is scheduled to fire. -/
  running : Bool
  /-- `uv_close` has been requested on this handle. -/
  closing : Bool
  deriving DecidableEq

/-- The `Timer` Python object (`struct` fields of `timer.c`). -/
structure Timer where
  initialized : Bool
  active : Bool
  closed : Bool
  /-- `self->uv_timer`: `none` models the NULL pointer. -/
  uv_timer : Option Nat
  callback : PyVal
  data : PyVal
  deriving DecidableEq

/-- The whole state a Timer operation can touch: the Timer object, the heap
of live `uv_timer_t` allocations, the allocator's next fresh id, the
`uv_close` requests whose `on_timer_close` callback has not yet run, and the
counters of keep-alive `Py_INCREF(self)` / `Py_DECREF(self)` operations. -/
structure World where
  timer : Timer
  heap : List (Nat × UvTimer)
  nextId : Nat
  pendingCloses : List Nat
  keepIncs : Nat
  keepDecs : Nat
  deriving DecidableEq

/-- Heap lookup by handle id. -/
def hfind : List (Nat × UvTimer) → Nat → Option UvTimer
  | [], _ => Option.none
  | (k, u) :: rest, h => if k = h then some u else hfind rest h

/-- Heap update of an existing handle id (no-op when absent). -/
def hset : List (Nat × UvTimer) → Nat → UvTimer → List (Nat × UvTimer)
  | [], _, _ => []
  | (k, u) :: rest, h, v => if k = h then (k, v) :: rest else (k, u) :: hset rest h v

/-- `PyMem_Free`: remove a handle id from the heap. -/
def hremove : List (Nat × UvTimer) → Nat → List (Nat × UvTimer)
  | [], _ => []
  | (k, u) :: rest, h => if k = h then rest else (k, u) :: hremove rest h

/-- Outcome of a Timer method: `ok` (success), `err` (Python exception set,
with the possibly-mutated state), or `crash` (undefined behaviour). -/
inductive Res where
  | ok (w : World)
  | err (e : PyErr) (w : World)
  | crash (u : UB)
  deriving DecidableEq

/-- Outcome of `Timer_repeat_get` (it returns a float and mutates nothing). -/
inductive GetRes where
  | ok (v : ℚ)
  | err (e : PyErr)
  | crash (u : UB)
  deriving DecidableEq

/-- The C cast `(int64_t) q` for a `double` value: truncation toward zero.
(Written with `Rat.floor`, which is definitionally `⌊·⌋` on `ℚ`; see
`c_int64_trunc_eq_floor`.) -/
def c_int64_trunc (q : ℚ) : Int :=
  if q < 0 then -(Rat.floor (-q)) else Rat.floor q

/-- On the arguments the C code reaches (non-negative values), the cast is
the floor. -/
theorem c_int64_trunc_eq_floor (q : ℚ) (h : 0 ≤ q) : c_int64_trunc q = ⌊q⌋ := by
  rw [c_int64_trunc, if_neg (not_lt.mpr h), Rat.floor_def', Rat.floor_def]

/-- Sequencing helper: run the next operation if the previous one succeeded,
propagate errors and crashes otherwise. -/
def Res.andThen : Res → (World → Res) → Res
  | .ok w, f => f w
  | .err e w, _ => .err e w
  | .crash u, _ => .crash u

/-- The state after an operation, when it did not crash (CPython keeps the
mutated interpreter state also when an exception was raised). -/
def Res.world : Res → Option World
  | .ok w => some w
  | .err _ w => some w
  | .crash _ => Option.none

/-- The exception an operation raised, if any. -/
def Res.errOf : Res → Option PyErr
  | .err e _ => some e
  | _ => Option.none

/-- Did the operation return successfully? -/
def Res.isOk : Res → Bool
  | .ok _ => true
  | _ => false

/-- `Timer_tp_new`: `PyType_GenericNew` zeroes the object, then
`self->initialized = False`.  The NULL `callback`/`data` pointers of the
fresh object are modelled as `Py_None`. -/
def Timer_tp_new_obj : Timer :=
  { initialized := false, active := false, closed := false,
    uv_timer := Option.none, callback := PyVal.pyNone, data := PyVal.pyNone }

/-- `Timer_tp_init`: fails if already initialized, otherwise binds the loop
(not modelled) and resets the lifecycle fields. -/
def Timer_tp_init (t : Timer) : Except PyErr Timer :=
  if t.initialized then .error .alreadyInit
  else .ok { t with initialized := true, active := false, closed := false,
                    uv_timer := Option.none }

/-- A freshly constructed and initialized Timer. -/
def freshTimer : Timer :=
  { initialized := true, active := false, closed := false,
    uv_timer := Option.none, callback := PyVal.pyNone, data := PyVal.pyNone }

/-- The world holding one freshly initialized, never-started Timer. -/
def initWorld : World :=
  { timer := freshTimer, heap := [], nextId := 0,
    pendingCloses := [], keepIncs := 0, keepDecs := 0 }

example : Timer_tp_init Timer_tp_new_obj = .ok freshTimer := rfl
example : Timer_tp_init freshTimer = .error .alreadyInit := rfl

/-- The `error:` label of `Timer_func_start` (lines 125–133): free the
locally allocated handle if any, `Py_DECREF` the new callback and data
(object refcounts, not tracked here), and unconditionally set
`self->uv_timer = NULL` — also when `self->uv_timer` held a handle retained
from an earlier start/stop cycle. -/
def start_error_tail (w : World) (localTimer : Option Nat) (e : PyErr) : Res :=
  let w := match localTimer with
    | some h => { w with heap := hremove w.heap h }
    | Option.none => w
  .err e { w with timer := { w.timer with uv_timer := Option.none } }

/-- `Timer_func_start(self, callback, timeout, repeat, data=Py_None)`.

The call-time oracles model the fallible external collaborators:
`mallocOk` — `PyMem_Malloc(sizeof(uv_timer_t))` succeeds;
`uvInitOk` — `uv_timer_init(SELF_LOOP, uv_timer) == 0`;
`uvStartOk` — `uv_timer_start(...) == 0`.

Control flow mirrors the C exactly: closed check, active check, argument
parse (modelled as already typed), `PyCallable_Check`, store the new
callback, negativity checks on `timeout` and `repeat`, store `data`,
allocate, `uv_timer_init`, link `self->uv_timer`, `uv_timer_start`, set
`active`, keep-alive `Py_INCREF(self)`. -/
def Timer_func_start (w : World) (callback : PyVal) (timeout rpt : ℚ)
    (data : PyVal) (mallocOk uvInitOk uvStartOk : Bool) : Res :=
  if w.timer.closed then .err .timerClosed w
  else if w.timer.active then .err .timerAlreadyActive w
  else if ¬ callback.isCallable then .err .notCallableOrNone w
  else
    let w := { w with timer := { w.timer with callback := callback } }
    if timeout < 0 then start_error_tail w Option.none .negativeValue
    else if rpt < 0 then start_error_tail w Option.none .negativeValue
    else
      let w := { w with timer := { w.timer with data := data } }
      if ¬ mallocOk then start_error_tail w Option.none .noMemory
      else
        let h := w.nextId
        let w := { w with heap := (h, { repeat_ms := 0, running := false, closing := false }) :: w.heap,
                          nextId := w.nextId + 1 }
        if ¬ uvInitOk then start_error_tail w (some h) .uvRaised
        else
          let w := { w with timer := { w.timer with uv_timer := some h } }
          if ¬ uvStartOk then start_error_tail w (some h) .uvRaised
          else
            let started : UvTimer :=
              { repeat_ms := c_int64_trunc (rpt * 1000), running := true, closing := false }
            let w := { w with heap := hset w.heap h started }
            .ok { w with timer := { w.timer with active := true },
                         keepIncs := w.keepIncs + 1 }

/-- `Timer_func_stop`: fails if not active; otherwise `uv_timer_stop` on
`self->uv_timer` (always returns 0 in libuv), then `active = False`. -/
def Timer_func_stop (w : World) : Res :=
  if ¬ w.timer.active then .err .timerNotActive w
  else match w.timer.uv_timer with
    | Option.none => .crash .nullDeref
    | some h => match hfind w.heap h with
      | Option.none => .crash .useAfterFree
      | some u =>
        let w := { w with heap := hset w.heap h { u with running := false } }
        .ok { w with timer := { w.timer with active := false } }

/-- `Timer_func_again`: fails if closed; otherwise `uv_timer_again` on
`self->uv_timer` (stop, then restart with `repeat` as timeout when
`repeat ≠ 0`). -/
def Timer_func_again (w : World) : Res :=
  if w.timer.closed then .err .timerClosed w
  else match w.timer.uv_timer with
    | Option.none => .crash .nullDeref
    | some h => match hfind w.heap h with
      | Option.none => .crash .useAfterFree
      | some u =>
        .ok { w with heap := hset w.heap h { u with running := u.repeat_ms ≠ 0 } }

/-- `Timer_func_close`: set `self->closed = True`; then, if
`self->uv_timer != NULL`, request `uv_close(self->uv_timer, on_timer_close)`.
There is no guard against `self->closed` already being true, and
`self->uv_timer` is never reset, so a second call re-issues `uv_close`. -/
def Timer_func_close (w : World) : Res :=
  let w := { w with timer := { w.timer with closed := true } }
  match w.timer.uv_timer with
  | Option.none => .ok w
  | some h => match hfind w.heap h with
    | Option.none => .crash .useAfterFree
    | some u =>
      if u.closing then .crash .doubleClose
      else .ok { w with heap := hset w.heap h { u with running := false, closing := true },
                        pendingCloses := w.pendingCloses ++ [h] }

/-- `on_timer_close(handle)`: the close trampoline, run by the loop once a
pending `uv_close` completes.  `Py_DECREF` the kept-alive Timer object,
clear `handle->data`, `PyMem_Free(handle)`. -/
def run_on_timer_close (w : World) (h : Nat) : World :=
  { w with keepDecs := w.keepDecs + 1,
           heap := hremove w.heap h,
           pendingCloses := w.pendingCloses.erase h }

/-- `on_timer_callback`: the firing trampoline invokes the stored callback
iff it is not `Py_None`. -/
def on_timer_callback_invokes (t : Timer) : Bool :=
  match t.callback with
  | PyVal.pyNone => false
  | _ => true

/-- `Timer_repeat_get`: closed check, then
`uv_timer_get_repeat(self->uv_timer) / 1000.0` — dereferencing
`self->uv_timer` with no NULL check. -/
def Timer_repeat_get (w : World) : GetRes :=
  if w.timer.closed then .err .timerClosed
  else match w.timer.uv_timer with
    | Option.none => .crash .nullDeref
    | some h => match hfind w.heap h with
      | Option.none => .crash .useAfterFree
      | some u => .ok ((u.repeat_ms : ℚ) / 1000)

/-- `Timer_repeat_set`: closed check, deletion check (the caller always
passes a value here), `PyFloat_AsDouble` (modelled as an exact `ℚ`),
negativity check, then
`uv_timer_set_repeat(self->uv_timer, (int64_t)(repeat * 1000))` —
dereferencing `self->uv_timer` with no NULL check. -/
def Timer_repeat_set (w : World) (value : ℚ) : Res :=
  if w.timer.closed then .err .timerClosed w
  else if value < 0 then .err .negativeValue w
  else match w.timer.uv_timer with
    | Option.none => .crash .nullDeref
    | some h => match hfind w.heap h with
      | Option.none => .crash .useAfterFree
      | some u =>
        .ok { w with heap := hset w.heap h { u with repeat_ms := c_int64_trunc (value * 1000) } }

example :
    (Timer_func_start initWorld (PyVal.callable 0) 1 0 PyVal.pyNone true true true).isOk
      = true := by
  norm_num [Timer_func_start, initWorld, freshTimer, PyVal.isCallable,
    c_int64_trunc, Rat.floor_def', hset, Res.isOk]

/-- `c_int64_trunc 0 = 0` (used when evaluating concrete runs). -/
theorem c_int64_trunc_zero : c_int64_trunc 0 = 0 := by
  rw [c_int64_trunc_eq_floor 0 le_rfl]; exact Int.floor_zero

/-- Updating a present key makes `hfind` return the new value. -/
theorem hfind_hset (l : List (Nat × UvTimer)) (h : Nat) (u v : UvTimer)
    (hu : hfind l h = some u) : hfind (hset l h v) h = some v := by
  induction l with
  | nil => simp [hfind] at hu
  | cons p rest ih =>
    by_cases hk : p.1 = h
    · simp [hfind, hset, hk]
    · simp [hfind, hset, hk] at hu ⊢
      exact ih hu

/-- Claim C6 (code_bug): `start(None, timeout, repeat)` on an idle,
non-closed timer is REJECTED by the code with
`TypeError("a callable or None is required")`, because
`PyCallable_Check(Py_None)` is false and the check does not special-case
`Py_None` — even though the error message itself and the `Py_None` test in
`on_timer_callback` show the no-op sentinel was meant to be accepted.  The
state is unchanged (the error is raised before any mutation). -/
theorem C6_start_none_rejected :
    Timer_func_start initWorld PyVal.pyNone 1 0 PyVal.pyNone true true true
        = Res.err PyErr.notCallableOrNone initWorld ∧
      on_timer_callback_invokes { freshTimer with callback := PyVal.pyNone } = false := by
  constructor
  · norm_num [Timer_func_start, initWorld, freshTimer, PyVal.isCallable]
  · rfl

/-- Claim C7 (code_bug): on a non-closed timer that was never started
(`self->uv_timer == NULL`), both the getter and the setter of the `repeat`
property dereference the NULL handle (`uv_timer_get_repeat` /
`uv_timer_set_repeat`) instead of failing with an error: only `closed` is
checked, never handle existence. -/
theorem C7_repeat_null_deref :
    Timer_repeat_get initWorld = GetRes.crash UB.nullDeref ∧
      Timer_repeat_set initWorld 1 = Res.crash UB.nullDeref := by
  constructor
  · rfl
  · norm_num [Timer_repeat_set, initWorld, freshTimer]

/-- Claim C3 (code_bug): `again()` on a closed timer does fail with
`TimerError("Timer is closed")`, but `again()` on a never-started,
non-closed timer calls `uv_timer_again(self->uv_timer)` with
`self->uv_timer == NULL` — a NULL dereference, not a
`TimerNotYetStartedError`. -/
theorem C3_again_null_deref :
    Timer_func_again initWorld = Res.crash UB.nullDeref ∧
      Res.errOf ((Timer_func_close initWorld).andThen Timer_func_again)
        = some PyErr.timerClosed := by
  constructor <;> rfl

/-- Claim C1 (code_bug): `close()` is NOT idempotent once the timer has
been started: `Timer_func_close` sets `self->closed` but never checks it
and never clears `self->uv_timer`, so a second `close()` issues
`uv_close` on the same (already-closing) handle a second time — libuv
asserts on this, and if it did not, `on_timer_close` would run twice,
double-`Py_DECREF`-ing and double-freeing the handle. -/
theorem C1_close_not_idempotent :
    ((Timer_func_start initWorld (PyVal.callable 0) 1 0 PyVal.pyNone true true
        true).andThen Timer_func_close).andThen Timer_func_close
      = Res.crash UB.doubleClose := by
  norm_num [Timer_func_start, Timer_func_close, Res.andThen, initWorld,
    freshTimer, PyVal.isCallable, c_int64_trunc_zero, hset, hfind]

/-- The world after a successful `start(callable 0, 1.0, 0.0)` on a fresh
timer: armed, native handle `0` allocated and running, one keep-alive
increment. -/
def armedWorld : World :=
  { timer := { initialized := true, active := true, closed := false,
               uv_timer := some 0, callback := PyVal.callable 0, data := PyVal.pyNone },
    heap := [(0, { repeat_ms := 0, running := true, closing := false })],
    nextId := 1, pendingCloses := [], keepIncs := 1, keepDecs := 0 }

/-- `armedWorld` is exactly the state produced by `start` on a fresh timer. -/
theorem armedWorld_reachable :
    Timer_func_start initWorld (PyVal.callable 0) 1 0 PyVal.pyNone true true true
      = Res.ok armedWorld := by
  norm_num [Timer_func_start, initWorld, freshTimer, PyVal.isCallable,
    c_int64_trunc_zero, hset, armedWorld]

/-- The world after `start(callable 0, 1.0, 0.0); stop()` on a fresh timer:
idle again, native handle `0` retained (not freed, not closing), the
keep-alive increment still outstanding. -/
def stoppedWorld : World :=
  { timer := { initialized := true, active := false, closed := false,
               uv_timer := some 0, callback := PyVal.callable 0, data := PyVal.pyNone },
    heap := [(0, { repeat_ms := 0, running := false, closing := false })],
    nextId := 1, pendingCloses := [], keepIncs := 1, keepDecs := 0 }

/-- `stoppedWorld` is exactly the state produced by `start` then `stop`. -/
theorem stoppedWorld_reachable :
    (Timer_func_start initWorld (PyVal.callable 0) 1 0 PyVal.pyNone true true
        true).andThen Timer_func_stop = Res.ok stoppedWorld := by
  rw [armedWorld_reachable]
  norm_num [Timer_func_stop, Res.andThen, armedWorld, stoppedWorld, hfind, hset]

/-- Claim C2 counterexample: on a timer closed while armed
(`start(callable 0, 1.0, 0.0)` then `close()`), after `close()` has
returned the `active` flag is still `true` (the claim says it is false) and
a subsequent `stop()` SUCCEEDS (the claim says no start/stop/again may
succeed): `Timer_func_close` never clears `self->active`, and
`Timer_func_stop` checks only `self->active`, not `self->closed`. -/
theorem C2_close_counterexample :
    (Res.world ((Timer_func_start initWorld (PyVal.callable 0) 1 0 PyVal.pyNone
        true true true).andThen Timer_func_close)).map
      (fun w => (w.timer.active, (Timer_func_stop w).isOk))
      = some (true, true) := by
  rw [armedWorld_reachable]
  norm_num [Timer_func_close, Timer_func_stop, Res.andThen, Res.world, Res.isOk,
    armedWorld, hfind, hset]

/-- Claim C2 amended: once `close()` has returned (successfully), `closed`
is true and every subsequent `start` or `again` fails with
`TimerError("Timer is closed")`; but `close` leaves the `active` flag
unchanged rather than clearing it, so `active` is false after `close` only
if it was already false before, and `stop` — which checks only `active` —
fails (with `TimerError("Timer is not active.")`) only in that case. -/
theorem C2_close_amended (w w' : World) (hcl : Timer_func_close w = Res.ok w') :
    w'.timer.closed = true ∧
    w'.timer.active = w.timer.active ∧
    (∀ cb t r d m i s, Timer_func_start w' cb t r d m i s
        = Res.err PyErr.timerClosed w') ∧
    Timer_func_again w' = Res.err PyErr.timerClosed w' ∧
    (w.timer.active = false →
      Timer_func_stop w' = Res.err PyErr.timerNotActive w') := by
  have ht : w'.timer = { w.timer with closed := true } := by
    simp only [Timer_func_close] at hcl
    split at hcl
    next => injection hcl with h; subst h; rfl
    next =>
      split at hcl
      next => cases hcl
      next =>
        split at hcl
        next => cases hcl
        next => injection hcl with h; subst h; rfl
  refine ⟨by rw [ht], by rw [ht], ?_, ?_, ?_⟩
  · intro cb t r d m i s
    simp [Timer_func_start, ht]
  · simp [Timer_func_again, ht]
  · intro ha
    simp [Timer_func_stop, ht, ha]

/-- Witness for `C2_close_amended` at the concrete input `initWorld`. -/
theorem C2_close_amended_witness :
    Timer_func_close initWorld
        = Res.ok { initWorld with timer := { initWorld.timer with closed := true } } ∧
      ({ initWorld with timer := { initWorld.timer with closed := true } } : World).timer.closed
        = true :=
  ⟨by rfl,
   (C2_close_amended initWorld
      { initWorld with timer := { initWorld.timer with closed := true } } (by rfl)).1⟩

/-- Claim C4 (code_bug): over `start; stop; start; close` (both starts
successful) followed by the completion of the one pending `uv_close`, the
keep-alive reference is incremented twice but decremented only once, and
the first native handle is still allocated: the second `start` mallocs a
fresh `uv_timer_t` and overwrites `self->uv_timer`, so the first handle is
never closed, its keep-alive increment is never released, and the counts do
not balance. -/
theorem C4_keepalive_imbalance :
    (Res.world ((Timer_func_start stoppedWorld (PyVal.callable 1) 1 0 PyVal.pyNone
        true true true).andThen Timer_func_close)).map
      (fun w => ((run_on_timer_close w 1).keepIncs,
                 (run_on_timer_close w 1).keepDecs,
                 (run_on_timer_close w 1).pendingCloses,
                 (run_on_timer_close w 1).heap))
      = some (2, 1, [],
              [(0, { repeat_ms := 0, running := false, closing := false })]) ∧
    (Timer_func_start initWorld (PyVal.callable 0) 1 0 PyVal.pyNone true true
        true).andThen Timer_func_stop = Res.ok stoppedWorld := by
  refine ⟨?_, stoppedWorld_reachable⟩
  norm_num [Timer_func_start, Timer_func_close, run_on_timer_close, Res.andThen,
    Res.world, stoppedWorld, PyVal.isCallable, c_int64_trunc_zero, hset, hfind,
    hremove, List.erase]

/-- Claim C5 (code_bug): `start` is not atomic on failure.  From
`stoppedWorld` (a successful `start(callable 0, ...)`/`stop` cycle, native
handle `0` retained), the failing call `start(callable 1, -1.0, 0.0)`
raises `ValueError` but leaves `self->callback = callable 1` (the old
callback is not restored) and sets `self->uv_timer = NULL`, abandoning the
retained handle `0`, which stays allocated in the heap forever. -/
theorem C5_start_not_atomic :
    Timer_func_start stoppedWorld (PyVal.callable 1) (-1) 0 PyVal.pyNone true true true
        = Res.err PyErr.negativeValue
            { stoppedWorld with timer := { stoppedWorld.timer with
                callback := PyVal.callable 1, uv_timer := Option.none } } ∧
      (Timer_func_start initWorld (PyVal.callable 0) 1 0 PyVal.pyNone true true
          true).andThen Timer_func_stop = Res.ok stoppedWorld := by
  refine ⟨?_, stoppedWorld_reachable⟩
  norm_num [Timer_func_start, start_error_tail, stoppedWorld, PyVal.isCallable]

/-- Claim C9 (confirmed): on an armed (active, non-closed) timer, `start`
fails with `TimerError("Timer is already active.")` and mutates nothing:
the error is raised before the arguments are even parsed, and the returned
state is the input state `w` itself — the timer stays armed with its stored
callback and data untouched. -/
theorem C9_start_on_armed_frame (w : World) (cb : PyVal) (t r : ℚ) (d : PyVal)
    (m i s : Bool) (hcl : w.timer.closed = false) (ha : w.timer.active = true) :
    Timer_func_start w cb t r d m i s = Res.err PyErr.timerAlreadyActive w := by
  simp [Timer_func_start, hcl, ha]

/-- Witness for `C9_start_on_armed_frame` at the concrete armed world. -/
theorem C9_start_on_armed_frame_witness :
    (armedWorld.timer.closed = false ∧ armedWorld.timer.active = true) ∧
      Timer_func_start armedWorld (PyVal.callable 7) 2 3 PyVal.pyNone true true true
        = Res.err PyErr.timerAlreadyActive armedWorld :=
  ⟨⟨rfl, rfl⟩,
   C9_start_on_armed_frame armedWorld (PyVal.callable 7) 2 3 PyVal.pyNone
     true true true rfl rfl⟩

/-- Claim C10 (confirmed): `close()` on an initialized timer that was never
started (`self->uv_timer == NULL`) succeeds and only sets `closed`: the
returned world differs from the input exactly in `timer.closed` (so the
heap, the pending `uv_close` requests, and both keep-alive counters are
untouched — no native release is requested, `on_timer_close` is never
scheduled, and no keep-alive reference is released), and afterwards
`start`, `again`, and both `repeat` accessors fail with
`TimerError("Timer is closed")`. -/
theorem C10_close_never_started (w : World) (hn : w.timer.uv_timer = Option.none) :
    Timer_func_close w
        = Res.ok { w with timer := { w.timer with closed := true } } ∧
      (∀ cb t r d m i s,
        Timer_func_start { w with timer := { w.timer with closed := true } } cb t r d m i s
          = Res.err PyErr.timerClosed
              { w with timer := { w.timer with closed := true } }) ∧
      Timer_func_again { w with timer := { w.timer with closed := true } }
        = Res.err PyErr.timerClosed
            { w with timer := { w.timer with closed := true } } ∧
      Timer_repeat_get { w with timer := { w.timer with closed := true } }
        = GetRes.err PyErr.timerClosed ∧
      (∀ x, Timer_repeat_set { w with timer := { w.timer with closed := true } } x
        = Res.err PyErr.timerClosed
            { w with timer := { w.timer with closed := true } }) := by
  refine ⟨?_, ?_, ?_, ?_, ?_⟩
  · simp [Timer_func_close, hn]
  · intro cb t r d m i s
    simp [Timer_func_start]
  · simp [Timer_func_again]
  · simp [Timer_repeat_get]
  · intro x
    simp [Timer_repeat_set]

/-- Witness for `C10_close_never_started` at the concrete input
`initWorld`. -/
theorem C10_close_never_started_witness :
    initWorld.timer.uv_timer = Option.none ∧
      Timer_func_close initWorld
        = Res.ok { initWorld with timer := { initWorld.timer with closed := true } } :=
  ⟨rfl, (C10_close_never_started initWorld rfl).1⟩

/-- Claim C8 (confirmed, over the exact-rational model of the C doubles):
on a non-closed timer whose native handle exists, `repeat = x` followed by
reading `repeat` returns `⌊x * 1000⌋ / 1000` — `x` truncated to whole
milliseconds (the `(int64_t)(x * 1000)` cast, then division by `1000.0`) —
and returns exactly `x` whenever `x` is a whole multiple of one
millisecond (`x = k / 1000` for an integer `k`). -/
theorem C8_repeat_roundtrip (w : World) (h : Nat) (u : UvTimer) (x : ℚ)
    (hcl : w.timer.closed = false) (hh : w.timer.uv_timer = some h)
    (hu : hfind w.heap h = some u) (hx : 0 ≤ x) :
    ∃ w', Timer_repeat_set w x = Res.ok w' ∧
      Timer_repeat_get w' = GetRes.ok ((⌊x * 1000⌋ : ℚ) / 1000) ∧
      (∀ k : ℤ, x = (k : ℚ) / 1000 → Timer_repeat_get w' = GetRes.ok x) := by
  have hx1000 : (0 : ℚ) ≤ x * 1000 := by positivity
  refine ⟨{ w with heap := hset w.heap h { u with repeat_ms := c_int64_trunc (x * 1000) } },
    ?_, ?_, ?_⟩
  · simp [Timer_repeat_set, hcl, not_lt.mpr hx, hh, hu]
  · simp [Timer_repeat_get, hcl, hh, hfind_hset w.heap h u _ hu,
      c_int64_trunc_eq_floor _ hx1000]
  · intro k hk
    have hxk : x * 1000 = (k : ℚ) := by
      rw [hk]; field_simp
    have hck : c_int64_trunc ((k : ℚ)) = k := by
      rw [c_int64_trunc_eq_floor _ (hxk ▸ hx1000)]
      exact Int.floor_intCast k
    simp [Timer_repeat_get, hcl, hh, hfind_hset w.heap h u _ hu, hxk, hck, hk]

/-- Witness for `C8_repeat_roundtrip` at the concrete armed world with
`x = 3/2` seconds (1500 ms, a whole multiple of one millisecond). -/
theorem C8_repeat_roundtrip_witness :
    (armedWorld.timer.closed = false ∧ armedWorld.timer.uv_timer = some 0 ∧
      hfind armedWorld.heap 0
          = some { repeat_ms := 0, running := true, closing := false } ∧
      (0 : ℚ) ≤ 3 / 2) ∧
    (∃ w', Timer_repeat_set armedWorld (3 / 2) = Res.ok w' ∧
      Timer_repeat_get w' = GetRes.ok ((⌊(3 / 2 : ℚ) * 1000⌋ : ℚ) / 1000) ∧
      (∀ k : ℤ, (3 / 2 : ℚ) = (k : ℚ) / 1000 →
        Timer_repeat_get w' = GetRes.ok (3 / 2))) :=
  ⟨⟨rfl, rfl, rfl, by norm_num⟩,
   C8_repeat_roundtrip armedWorld 0
     { repeat_ms := 0, running := true, closing := false } (3 / 2)
     rfl rfl rfl (by norm_num)⟩
